import Mathlib

/-!
Verification of the MPG gamepad-enums header (`src/GamepadEnums.h`) and of the
minimal SOCD resolution engine the spec derives from its enum comments.
The enums below are shallow embeddings of the C `typedef enum` declarations;
the numeric value of each enumerator is given by a `...Code` function that
mirrors C's positional (or explicit) value assignment.
-/

/-- The available stick emulation modes (`DpadMode` in `GamepadEnums.h`). -/
inductive DpadMode where
  | DPAD_MODE_DIGITAL
  | DPAD_MODE_LEFT_ANALOG
  | DPAD_MODE_RIGHT_ANALOG
deriving DecidableEq, Repr, Fintype

/-- C enumerator value of each `DpadMode` variant (positional, starting at 0). -/
def dpadModeCode : DpadMode → Nat
  | .DPAD_MODE_DIGITAL => 0
  | .DPAD_MODE_LEFT_ANALOG => 1
  | .DPAD_MODE_RIGHT_ANALOG => 2

/-- The available SOCD cleaning methods (`SOCDMode` in `GamepadEnums.h`):
3 legacy variants followed by the comprehensive X/Y cross-product variants. -/
inductive SOCDMode where
  | SOCD_MODE_UP_PRIORITY
  | SOCD_MODE_NEUTRAL
  | SOCD_MODE_SECOND_INPUT_PRIORITY
  | SOCD_MODE_X_NEUTRAL_Y_NEUTRAL
  | SOCD_MODE_X_NEUTRAL_Y_DOWN
  | SOCD_MODE_X_NEUTRAL_Y_UP
  | SOCD_MODE_X_NEUTRAL_Y_LIP
  | SOCD_MODE_X_NEUTRAL_Y_FIP
  | SOCD_MODE_X_LEFT_Y_NEUTRAL
  | SOCD_MODE_X_LEFT_Y_DOWN
  | SOCD_MODE_X_LEFT_Y_UP
  | SOCD_MODE_X_LEFT_Y_LIP
  | SOCD_MODE_X_LEFT_Y_FIP
  | SOCD_MODE_X_RIGHT_Y_NEUTRAL
  | SOCD_MODE_X_RIGHT_Y_DOWN
  | SOCD_MODE_X_RIGHT_Y_UP
  | SOCD_MODE_X_RIGHT_Y_LIP
  | SOCD_MODE_X_RIGHT_Y_FIP
  | SOCD_MODE_X_LIP_Y_NEUTRAL
  | SOCD_MODE_X_LIP_Y_DOWN
  | SOCD_MODE_X_LIP_Y_UP
  | SOCD_MODE_X_LIP_Y_LIP
  | SOCD_MODE_X_LIP_Y_FIP
  | SOCD_MODE_X_FIP_Y_NEUTRAL
  | SOCD_MODE_X_FIP_Y_DOWN
  | SOCD_MODE_X_FIP_Y_UP
  | SOCD_MODE_X_FIP_Y_LIP
  | SOCD_MODE_X_FIP_Y_FIP
deriving DecidableEq, Repr, Fintype

open SOCDMode

/-- The `SOCDMode` enumerators in declaration order, so that the C value of a
variant is its index in this list. -/
def socdModeList : List SOCDMode :=
  [SOCD_MODE_UP_PRIORITY, SOCD_MODE_NEUTRAL, SOCD_MODE_SECOND_INPUT_PRIORITY,
   SOCD_MODE_X_NEUTRAL_Y_NEUTRAL, SOCD_MODE_X_NEUTRAL_Y_DOWN, SOCD_MODE_X_NEUTRAL_Y_UP,
   SOCD_MODE_X_NEUTRAL_Y_LIP, SOCD_MODE_X_NEUTRAL_Y_FIP,
   SOCD_MODE_X_LEFT_Y_NEUTRAL, SOCD_MODE_X_LEFT_Y_DOWN, SOCD_MODE_X_LEFT_Y_UP,
   SOCD_MODE_X_LEFT_Y_LIP, SOCD_MODE_X_LEFT_Y_FIP,
   SOCD_MODE_X_RIGHT_Y_NEUTRAL, SOCD_MODE_X_RIGHT_Y_DOWN, SOCD_MODE_X_RIGHT_Y_UP,
   SOCD_MODE_X_RIGHT_Y_LIP, SOCD_MODE_X_RIGHT_Y_FIP,
   SOCD_MODE_X_LIP_Y_NEUTRAL, SOCD_MODE_X_LIP_Y_DOWN, SOCD_MODE_X_LIP_Y_UP,
   SOCD_MODE_X_LIP_Y_LIP, SOCD_MODE_X_LIP_Y_FIP,
   SOCD_MODE_X_FIP_Y_NEUTRAL, SOCD_MODE_X_FIP_Y_DOWN, SOCD_MODE_X_FIP_Y_UP,
   SOCD_MODE_X_FIP_Y_LIP, SOCD_MODE_X_FIP_Y_FIP]

/-- C enumerator value of each `SOCDMode` variant: its position in the
declaration (the C enum assigns 0, 1, 2, ... positionally). -/
def socdCode (m : SOCDMode) : Nat :=
  match m with
  | SOCD_MODE_UP_PRIORITY => 0
  | SOCD_MODE_NEUTRAL => 1
  | SOCD_MODE_SECOND_INPUT_PRIORITY => 2
  | SOCD_MODE_X_NEUTRAL_Y_NEUTRAL => 3
  | SOCD_MODE_X_NEUTRAL_Y_DOWN => 4
  | SOCD_MODE_X_NEUTRAL_Y_UP => 5
  | SOCD_MODE_X_NEUTRAL_Y_LIP => 6
  | SOCD_MODE_X_NEUTRAL_Y_FIP => 7
  | SOCD_MODE_X_LEFT_Y_NEUTRAL => 8
  | SOCD_MODE_X_LEFT_Y_DOWN => 9
  | SOCD_MODE_X_LEFT_Y_UP => 10
  | SOCD_MODE_X_LEFT_Y_LIP => 11
  | SOCD_MODE_X_LEFT_Y_FIP => 12
  | SOCD_MODE_X_RIGHT_Y_NEUTRAL => 13
  | SOCD_MODE_X_RIGHT_Y_DOWN => 14
  | SOCD_MODE_X_RIGHT_Y_UP => 15
  | SOCD_MODE_X_RIGHT_Y_LIP => 16
  | SOCD_MODE_X_RIGHT_Y_FIP => 17
  | SOCD_MODE_X_LIP_Y_NEUTRAL => 18
  | SOCD_MODE_X_LIP_Y_DOWN => 19
  | SOCD_MODE_X_LIP_Y_UP => 20
  | SOCD_MODE_X_LIP_Y_LIP => 21
  | SOCD_MODE_X_LIP_Y_FIP => 22
  | SOCD_MODE_X_FIP_Y_NEUTRAL => 23
  | SOCD_MODE_X_FIP_Y_DOWN => 24
  | SOCD_MODE_X_FIP_Y_UP => 25
  | SOCD_MODE_X_FIP_Y_LIP => 26
  | SOCD_MODE_X_FIP_Y_FIP => 27

/-- The three legacy compatibility variants of `SOCDMode`. -/
def isLegacy : SOCDMode → Bool
  | SOCD_MODE_UP_PRIORITY => true
  | SOCD_MODE_NEUTRAL => true
  | SOCD_MODE_SECOND_INPUT_PRIORITY => true
  | _ => false

/-- Enum for tracking last direction state (`DpadDirection` in
`GamepadEnums.h`). -/
inductive DpadDirection where
  | DIRECTION_NONE
  | DIRECTION_UP
  | DIRECTION_DOWN
  | DIRECTION_LEFT
  | DIRECTION_RIGHT
deriving DecidableEq, Repr, Fintype

/-- C enumerator value of each `DpadDirection` variant (positional). -/
def dpadDirectionCode : DpadDirection → Nat
  | .DIRECTION_NONE => 0
  | .DIRECTION_UP => 1
  | .DIRECTION_DOWN => 2
  | .DIRECTION_LEFT => 3
  | .DIRECTION_RIGHT => 4

/-- The available hotkey actions (`GamepadHotkey` in `GamepadEnums.h`). -/
inductive GamepadHotkey where
  | HOTKEY_NONE
  | HOTKEY_DPAD_DIGITAL
  | HOTKEY_DPAD_LEFT_ANALOG
  | HOTKEY_DPAD_RIGHT_ANALOG
  | HOTKEY_HOME_BUTTON
  | HOTKEY_CAPTURE_BUTTON
  | HOTKEY_SOCD_UP_PRIORITY
  | HOTKEY_SOCD_NEUTRAL
  | HOTKEY_SOCD_LAST_INPUT
  | HOTKEY_INVERT_X_AXIS
  | HOTKEY_INVERT_Y_AXIS
deriving DecidableEq, Repr, Fintype

/-- C enumerator value of each `GamepadHotkey` constant: `HOTKEY_NONE = 0x00`
and the ten actions are `1U << 0` through `1U << 9` as declared. -/
def hotkeyValue : GamepadHotkey → Nat
  | .HOTKEY_NONE => 0x00
  | .HOTKEY_DPAD_DIGITAL => 1 <<< 0
  | .HOTKEY_DPAD_LEFT_ANALOG => 1 <<< 1
  | .HOTKEY_DPAD_RIGHT_ANALOG => 1 <<< 2
  | .HOTKEY_HOME_BUTTON => 1 <<< 3
  | .HOTKEY_CAPTURE_BUTTON => 1 <<< 4
  | .HOTKEY_SOCD_UP_PRIORITY => 1 <<< 5
  | .HOTKEY_SOCD_NEUTRAL => 1 <<< 6
  | .HOTKEY_SOCD_LAST_INPUT => 1 <<< 7
  | .HOTKEY_INVERT_X_AXIS => 1 <<< 8
  | .HOTKEY_INVERT_Y_AXIS => 1 <<< 9

/-- The ten nonzero `GamepadHotkey` constants in declaration order. -/
def hotkeyAt : Fin 10 → GamepadHotkey
  | 0 => .HOTKEY_DPAD_DIGITAL
  | 1 => .HOTKEY_DPAD_LEFT_ANALOG
  | 2 => .HOTKEY_DPAD_RIGHT_ANALOG
  | 3 => .HOTKEY_HOME_BUTTON
  | 4 => .HOTKEY_CAPTURE_BUTTON
  | 5 => .HOTKEY_SOCD_UP_PRIORITY
  | 6 => .HOTKEY_SOCD_NEUTRAL
  | 7 => .HOTKEY_SOCD_LAST_INPUT
  | 8 => .HOTKEY_INVERT_X_AXIS
  | 9 => .HOTKEY_INVERT_Y_AXIS

/-- Bitwise-OR composition of a subset of the ten nonzero hotkey constants,
the subset given by its indicator function on declaration positions. -/
def hotkeyCompose (f : Fin 10 → Bool) : Nat :=
  (List.finRange 10).foldr
    (fun i acc => (if f i then hotkeyValue (hotkeyAt i) else 0) ||| acc) 0

/-- Modelled from the spec: the per-axis SOCD cleaning policy (§3, §4.2).
The resolver implementation is absent from the supplied source; the spec
decomposes every `SOCDMode` into one policy per axis, each drawn from
Neutral, Up/Left-priority (`priorityA`), Down/Right-priority (`priorityB`),
Last-Input-Priority (`lip`) and First-Input-Priority (`fip`). -/
inductive AxisPolicy where
  | neutral
  | priorityA
  | priorityB
  | lip
  | fip
deriving DecidableEq, Repr, Fintype

open AxisPolicy

/-- Modelled from the spec: which side of one opposing pair a tracker entry
names — side A is Up (Y axis) or Left (X axis), side B is Down or Right. -/
inductive AxisSide where
  | sideA
  | sideB
deriving DecidableEq, Repr, Fintype

/-- Modelled from the spec: per-axis `DirectionalStateTracker` state (§4.1).
The tracker retains both the first press (never overwritten while held) and
the last press (always overwritten on new press); `none` is the reset state
when both opposing inputs have released. -/
structure AxisTracker where
  first : Option AxisSide
  last : Option AxisSide
deriving DecidableEq, Repr, Fintype

/-- Modelled from the spec: the per-axis policy table of §4.2, applied to one
opposing pair `(a, b)` (a = Up or Left, b = Down or Right).  When the pair is
not simultaneously pressed the output mirrors the raw input; when both are
pressed the policy decides, with LIP/FIP consulting the tracker and falling
back to Neutral when the tracked entry is absent. -/
def resolveAxis (p : AxisPolicy) (a b : Bool) (t : AxisTracker) : Bool × Bool :=
  if a && b then
    match p with
    | neutral => (false, false)
    | priorityA => (true, false)
    | priorityB => (false, true)
    | lip =>
      match t.last with
      | some .sideA => (true, false)
      | some .sideB => (false, true)
      | none => (false, false)
    | fip =>
      match t.first with
      | some .sideA => (true, false)
      | some .sideB => (false, true)
      | none => (false, false)
  else
    (a, b)

/-- The (X-policy, Y-policy) pair of each `SOCDMode` variant, decoded from the
inline comments of `GamepadEnums.h` (e.g. `SOCD_MODE_UP_PRIORITY` is
`U+D=U, L+R=N`, i.e. X neutral, Y up-priority). -/
def socdPolicies : SOCDMode → AxisPolicy × AxisPolicy
  | SOCD_MODE_UP_PRIORITY => (neutral, priorityA)
  | SOCD_MODE_NEUTRAL => (neutral, neutral)
  | SOCD_MODE_SECOND_INPUT_PRIORITY => (lip, lip)
  | SOCD_MODE_X_NEUTRAL_Y_NEUTRAL => (neutral, neutral)
  | SOCD_MODE_X_NEUTRAL_Y_DOWN => (neutral, priorityB)
  | SOCD_MODE_X_NEUTRAL_Y_UP => (neutral, priorityA)
  | SOCD_MODE_X_NEUTRAL_Y_LIP => (neutral, lip)
  | SOCD_MODE_X_NEUTRAL_Y_FIP => (neutral, fip)
  | SOCD_MODE_X_LEFT_Y_NEUTRAL => (priorityA, neutral)
  | SOCD_MODE_X_LEFT_Y_DOWN => (priorityA, priorityB)
  | SOCD_MODE_X_LEFT_Y_UP => (priorityA, priorityA)
  | SOCD_MODE_X_LEFT_Y_LIP => (priorityA, lip)
  | SOCD_MODE_X_LEFT_Y_FIP => (priorityA, fip)
  | SOCD_MODE_X_RIGHT_Y_NEUTRAL => (priorityB, neutral)
  | SOCD_MODE_X_RIGHT_Y_DOWN => (priorityB, priorityB)
  | SOCD_MODE_X_RIGHT_Y_UP => (priorityB, priorityA)
  | SOCD_MODE_X_RIGHT_Y_LIP => (priorityB, lip)
  | SOCD_MODE_X_RIGHT_Y_FIP => (priorityB, fip)
  | SOCD_MODE_X_LIP_Y_NEUTRAL => (lip, neutral)
  | SOCD_MODE_X_LIP_Y_DOWN => (lip, priorityB)
  | SOCD_MODE_X_LIP_Y_UP => (lip, priorityA)
  | SOCD_MODE_X_LIP_Y_LIP => (lip, lip)
  | SOCD_MODE_X_LIP_Y_FIP => (lip, fip)
  | SOCD_MODE_X_FIP_Y_NEUTRAL => (fip, neutral)
  | SOCD_MODE_X_FIP_Y_DOWN => (fip, priorityB)
  | SOCD_MODE_X_FIP_Y_UP => (fip, priorityA)
  | SOCD_MODE_X_FIP_Y_LIP => (fip, lip)
  | SOCD_MODE_X_FIP_Y_FIP => (fip, fip)

/-- The inverse translation for the comprehensive variants: the comprehensive
`SOCDMode` variant encoding a given (X-policy, Y-policy) pair. -/
def socdModeOfPolicies : AxisPolicy × AxisPolicy → SOCDMode
  | (neutral, neutral) => SOCD_MODE_X_NEUTRAL_Y_NEUTRAL
  | (neutral, priorityB) => SOCD_MODE_X_NEUTRAL_Y_DOWN
  | (neutral, priorityA) => SOCD_MODE_X_NEUTRAL_Y_UP
  | (neutral, lip) => SOCD_MODE_X_NEUTRAL_Y_LIP
  | (neutral, fip) => SOCD_MODE_X_NEUTRAL_Y_FIP
  | (priorityA, neutral) => SOCD_MODE_X_LEFT_Y_NEUTRAL
  | (priorityA, priorityB) => SOCD_MODE_X_LEFT_Y_DOWN
  | (priorityA, priorityA) => SOCD_MODE_X_LEFT_Y_UP
  | (priorityA, lip) => SOCD_MODE_X_LEFT_Y_LIP
  | (priorityA, fip) => SOCD_MODE_X_LEFT_Y_FIP
  | (priorityB, neutral) => SOCD_MODE_X_RIGHT_Y_NEUTRAL
  | (priorityB, priorityB) => SOCD_MODE_X_RIGHT_Y_DOWN
  | (priorityB, priorityA) => SOCD_MODE_X_RIGHT_Y_UP
  | (priorityB, lip) => SOCD_MODE_X_RIGHT_Y_LIP
  | (priorityB, fip) => SOCD_MODE_X_RIGHT_Y_FIP
  | (lip, neutral) => SOCD_MODE_X_LIP_Y_NEUTRAL
  | (lip, priorityB) => SOCD_MODE_X_LIP_Y_DOWN
  | (lip, priorityA) => SOCD_MODE_X_LIP_Y_UP
  | (lip, lip) => SOCD_MODE_X_LIP_Y_LIP
  | (lip, fip) => SOCD_MODE_X_LIP_Y_FIP
  | (fip, neutral) => SOCD_MODE_X_FIP_Y_NEUTRAL
  | (fip, priorityB) => SOCD_MODE_X_FIP_Y_DOWN
  | (fip, priorityA) => SOCD_MODE_X_FIP_Y_UP
  | (fip, lip) => SOCD_MODE_X_FIP_Y_LIP
  | (fip, fip) => SOCD_MODE_X_FIP_Y_FIP

/-- Modelled from the spec: the cleaned directional output of the resolver
(`CleanedInput`, §4.2, digital form). -/
structure CleanedInput where
  up : Bool
  down : Bool
  left : Bool
  right : Bool
deriving DecidableEq, Repr, Fintype

/-- Modelled from the spec: `SOCDResolver.resolve` (§4.2), absent from the
supplied source.  Decodes the mode's per-axis policies and applies the policy
table independently to the X pair (left, right) with tracker `tx` and the Y
pair (up, down) with tracker `ty`. -/
def resolve (m : SOCDMode) (up down left right : Bool)
    (tx ty : AxisTracker) : CleanedInput :=
  { up := (resolveAxis (socdPolicies m).2 up down ty).1
    down := (resolveAxis (socdPolicies m).2 up down ty).2
    left := (resolveAxis (socdPolicies m).1 left right tx).1
    right := (resolveAxis (socdPolicies m).1 left right tx).2 }

/-- Decode a raw configuration value into an `SOCDMode`: the C enum assigns
positional values, so value `n` names the `n`-th declared variant and any
other value is unrecognized. -/
def socdModeOfCode (n : Nat) : Option SOCDMode :=
  socdModeList.get? n

/-- Modelled from the spec: the resolver entry point on a raw (possibly
corrupted) configuration value (§7): an unrecognized `SOCDMode` value fails
closed to Neutral cleaning on both axes, with no error signalled. -/
def resolveCode (n : Nat) (up down left right : Bool)
    (tx ty : AxisTracker) : CleanedInput :=
  match socdModeOfCode n with
  | some m => resolve m up down left right tx ty
  | none => resolve SOCD_MODE_NEUTRAL up down left right tx ty

/-- Modelled from the spec: decoding a raw configuration value into a
`DpadMode` (§7): any unrecognized value is treated as `DPAD_MODE_DIGITAL`. -/
def dpadModeOfCode (n : Nat) : DpadMode :=
  match n with
  | 0 => .DPAD_MODE_DIGITAL
  | 1 => .DPAD_MODE_LEFT_ANALOG
  | 2 => .DPAD_MODE_RIGHT_ANALOG
  | _ => .DPAD_MODE_DIGITAL

/-- Applying one single policy symmetrically to both axes (what the spec's
§4.2 sentence claims of the legacy modes). -/
def resolveSymmetric (p : AxisPolicy) (up down left right : Bool)
    (tx ty : AxisTracker) : CleanedInput :=
  { up := (resolveAxis p up down ty).1
    down := (resolveAxis p up down ty).2
    left := (resolveAxis p left right tx).1
    right := (resolveAxis p left right tx).2 }

/-! ## Theorems -/

/-- Per-axis safety: under every policy, raw pair and tracker state, the
cleaned opposing pair never has both directions asserted. -/
theorem resolveAxis_not_both :
    ∀ (p : AxisPolicy) (a b : Bool) (t : AxisTracker),
      ((resolveAxis p a b t).1 && (resolveAxis p a b t).2) = false := by
  decide

/-- C1: for every SOCDMode variant, every tracker state and all four boolean
combinations of each opposing pair, `resolve` asserts at most one direction of
the pair — never Left and Right together, never Up and Down together. -/
theorem resolve_at_most_one_per_pair :
    ∀ (m : SOCDMode) (u d l r : Bool) (tx ty : AxisTracker),
      (((resolve m u d l r tx ty).left && (resolve m u d l r tx ty).right) = false)
      ∧ (((resolve m u d l r tx ty).up && (resolve m u d l r tx ty).down) = false) :=
  fun m u d l r tx ty =>
    ⟨resolveAxis_not_both (socdPolicies m).1 l r tx,
     resolveAxis_not_both (socdPolicies m).2 u d ty⟩

/-- C2: every named SOCDMode variant corresponds to exactly one
(X-policy, Y-policy) pair drawn from the five per-axis policies, and each
legacy variant is a degenerate alias of a comprehensive variant's pair:
UP_PRIORITY of X_NEUTRAL_Y_UP, NEUTRAL of X_NEUTRAL_Y_NEUTRAL, and
SECOND_INPUT_PRIORITY of X_LIP_Y_LIP. -/
theorem socd_policy_decomposition :
    (∀ m : SOCDMode, ∃! p : AxisPolicy × AxisPolicy, socdPolicies m = p)
    ∧ socdPolicies SOCD_MODE_UP_PRIORITY = socdPolicies SOCD_MODE_X_NEUTRAL_Y_UP
    ∧ socdPolicies SOCD_MODE_NEUTRAL = socdPolicies SOCD_MODE_X_NEUTRAL_Y_NEUTRAL
    ∧ socdPolicies SOCD_MODE_SECOND_INPUT_PRIORITY = socdPolicies SOCD_MODE_X_LIP_Y_LIP :=
  ⟨fun m => ⟨socdPolicies m, rfl, fun _ h => h.symm⟩, rfl, rfl, rfl⟩

/-- C3 counterexample: no single per-axis policy, applied symmetrically to
both axes, reproduces `resolve` for the legacy SOCD_MODE_UP_PRIORITY even at
the single input "all four directions pressed, tracker reset": the mode is
Up-priority on Y but Neutral on X (per the `U+D=U, L+R=N` comment). -/
theorem legacy_not_symmetric_counterexample :
    ¬ ∃ p : AxisPolicy,
        resolve SOCD_MODE_UP_PRIORITY true true true true ⟨none, none⟩ ⟨none, none⟩
          = resolveSymmetric p true true true true ⟨none, none⟩ ⟨none, none⟩ := by
  decide

/-- C3 amended: SOCD_MODE_NEUTRAL and SOCD_MODE_SECOND_INPUT_PRIORITY each
apply one and the same policy (Neutral, resp. Last-Input-Priority)
symmetrically to both axes, while SOCD_MODE_UP_PRIORITY applies Up-priority
to the Y axis and Neutral to the X axis. -/
theorem legacy_modes_policies :
    (∀ (u d l r : Bool) (tx ty : AxisTracker),
        resolve SOCD_MODE_NEUTRAL u d l r tx ty
          = resolveSymmetric .neutral u d l r tx ty)
    ∧ (∀ (u d l r : Bool) (tx ty : AxisTracker),
        resolve SOCD_MODE_SECOND_INPUT_PRIORITY u d l r tx ty
          = resolveSymmetric .lip u d l r tx ty)
    ∧ socdPolicies SOCD_MODE_UP_PRIORITY = (AxisPolicy.neutral, AxisPolicy.priorityA)
    ∧ (∀ (u d l r : Bool) (tx ty : AxisTracker),
        resolve SOCD_MODE_UP_PRIORITY u d l r tx ty
          = { up := (resolveAxis .priorityA u d ty).1
              down := (resolveAxis .priorityA u d ty).2
              left := (resolveAxis .neutral l r tx).1
              right := (resolveAxis .neutral l r tx).2 }) :=
  ⟨fun _ _ _ _ _ _ => rfl, fun _ _ _ _ _ _ => rfl, rfl, fun _ _ _ _ _ _ => rfl⟩

/-- C4: with SOCD_MODE_UP_PRIORITY and all four raw directions pressed, for
every tracker state `resolve` returns Up only — Up-priority on the Y axis
and Neutral on the X axis. -/
theorem up_priority_all_pressed :
    socdPolicies SOCD_MODE_UP_PRIORITY = (AxisPolicy.neutral, AxisPolicy.priorityA)
    ∧ ∀ (tx ty : AxisTracker),
        resolve SOCD_MODE_UP_PRIORITY true true true true tx ty
          = ⟨true, false, false, false⟩ := by
  decide

/-- Unrecognized SOCD configuration values decode to no variant: the enum has
28 positional values, so any code at or above 28 is out of range. -/
theorem socdModeOfCode_out_of_range (n : Nat) (h : 28 ≤ n) :
    socdModeOfCode n = none := by
  unfold socdModeOfCode
  rw [List.get?_eq_none]
  simpa [socdModeList] using h

/-- C5: every out-of-range SOCDMode configuration value makes the resolver
fall back to Neutral cleaning on both axes, returning normally, and every
out-of-range DpadMode value is treated as DPAD_MODE_DIGITAL. -/
theorem unrecognized_modes_fail_closed :
    (∀ n : Nat, 28 ≤ n → ∀ (u d l r : Bool) (tx ty : AxisTracker),
        resolveCode n u d l r tx ty = resolveSymmetric .neutral u d l r tx ty)
    ∧ (∀ n : Nat, 3 ≤ n → dpadModeOfCode n = .DPAD_MODE_DIGITAL) := by
  constructor
  · intro n h u d l r tx ty
    unfold resolveCode
    rw [socdModeOfCode_out_of_range n h]
    rfl
  · intro n h
    obtain ⟨m, rfl⟩ : ∃ m, n = m + 3 := ⟨n - 3, by omega⟩
    rfl

/-- C5 witness: the fallback evaluated at the concrete garbage codes 99 (for
SOCDMode) and 7 (for DpadMode). -/
theorem unrecognized_modes_fail_closed_witness :
    resolveCode 99 true true true true ⟨none, none⟩ ⟨none, none⟩
      = resolveSymmetric .neutral true true true true ⟨none, none⟩ ⟨none, none⟩
    ∧ dpadModeOfCode 7 = .DPAD_MODE_DIGITAL :=
  ⟨unrecognized_modes_fail_closed.1 99 (by decide) true true true true ⟨none, none⟩ ⟨none, none⟩,
   unrecognized_modes_fail_closed.2 7 (by decide)⟩

/-- C6 counterexample: the SOCDMode enumeration does not have 25 variants. -/
theorem socd_mode_count_not_25 : Fintype.card SOCDMode ≠ 25 := by
  decide

/-- C6 amended: the SOCDMode enumeration declares exactly 28 variants, listed
without repetition and exhaustively by `socdModeList`. -/
theorem socd_mode_count :
    Fintype.card SOCDMode = 28
    ∧ socdModeList.length = 28
    ∧ socdModeList.Nodup
    ∧ ∀ m : SOCDMode, m ∈ socdModeList := by
  decide

/-- C7 counterexample: the number of comprehensive (non-legacy) SOCDMode
variants is not 22. -/
theorem comprehensive_count_not_22 :
    (Finset.univ.filter (fun m : SOCDMode => isLegacy m = false)).card ≠ 22 := by
  decide

/-- C7 amended: exactly 25 SOCDMode variants are comprehensive (non-legacy),
and they are in bijective translation with the 25 pairs of independently
chosen per-axis policies, via `socdModeOfPolicies` and `socdPolicies`. -/
theorem comprehensive_bijection :
    (Finset.univ.filter (fun m : SOCDMode => isLegacy m = false)).card = 25
    ∧ (∀ p : AxisPolicy × AxisPolicy,
        socdPolicies (socdModeOfPolicies p) = p
        ∧ isLegacy (socdModeOfPolicies p) = false)
    ∧ (∀ m : SOCDMode, isLegacy m = false → socdModeOfPolicies (socdPolicies m) = m) := by
  decide

/-- C7 witness: the round trip evaluated on the concrete comprehensive
variant SOCD_MODE_X_LEFT_Y_UP. -/
theorem comprehensive_bijection_witness :
    socdModeOfPolicies (socdPolicies SOCD_MODE_X_LEFT_Y_UP) = SOCD_MODE_X_LEFT_Y_UP :=
  comprehensive_bijection.2.2 SOCD_MODE_X_LEFT_Y_UP (by decide)

/-- C8: SOCD_MODE_UP_PRIORITY has value 0 and SOCD_MODE_NEUTRAL value 1, so a
zero-initialized configuration decodes to Up-priority cleaning, whose output
differs from Neutral cleaning (witnessed with all four directions pressed). -/
theorem zero_initialized_socd_is_up_priority :
    socdCode SOCD_MODE_UP_PRIORITY = 0
    ∧ socdCode SOCD_MODE_NEUTRAL = 1
    ∧ socdModeOfCode 0 = some SOCD_MODE_UP_PRIORITY
    ∧ resolveCode 0 true true true true ⟨none, none⟩ ⟨none, none⟩
        ≠ resolveSymmetric .neutral true true true true ⟨none, none⟩ ⟨none, none⟩ := by
  decide

/-- Bit-extraction helper: testing bit `k` of `if b then 2 ^ i else 0` yields
`b` exactly at position `i`. -/
theorem testBit_cond_two_pow (b : Bool) (i k : Nat) :
    Nat.testBit (if b then 2 ^ i else 0) k = (b && decide (i = k)) := by
  cases b
  · simp
  · rcases eq_or_ne i k with h | h
    · subst h; simp [Nat.testBit_two_pow_self]
    · simp [Nat.testBit_two_pow_of_ne h, h]

/-- The OR-composition of hotkey constants written out as nested ORs of
powers of two. -/
theorem hotkeyCompose_eq (f : Fin 10 → Bool) :
    hotkeyCompose f =
      (if f 0 then 2 ^ 0 else 0) ||| ((if f 1 then 2 ^ 1 else 0) |||
      ((if f 2 then 2 ^ 2 else 0) ||| ((if f 3 then 2 ^ 3 else 0) |||
      ((if f 4 then 2 ^ 4 else 0) ||| ((if f 5 then 2 ^ 5 else 0) |||
      ((if f 6 then 2 ^ 6 else 0) ||| ((if f 7 then 2 ^ 7 else 0) |||
      ((if f 8 then 2 ^ 8 else 0) ||| ((if f 9 then 2 ^ 9 else 0) ||| 0))))))))) := rfl

/-- Bit `j` of an OR-composition of hotkey constants recovers exactly the
`j`-th membership flag of the composed subset. -/
theorem hotkeyCompose_testBit (f : Fin 10 → Bool) (j : Fin 10) :
    Nat.testBit (hotkeyCompose f) j.val = f j := by
  rw [hotkeyCompose_eq]
  simp only [Nat.testBit_lor, testBit_cond_two_pow, Nat.zero_testBit]
  fin_cases j <;> simp

/-- C9: the ten nonzero GamepadHotkey constants are the pairwise-distinct
single-bit values 2^0 through 2^9, the bitwise-OR of any subset of them
uniquely determines that subset, and HOTKEY_NONE (0) is the identity of
OR-composition. -/
theorem hotkey_flags_single_bit_injective :
    (∀ i : Fin 10, hotkeyValue (hotkeyAt i) = 2 ^ i.val)
    ∧ (∀ f g : Fin 10 → Bool, hotkeyCompose f = hotkeyCompose g → f = g)
    ∧ hotkeyValue .HOTKEY_NONE = 0
    ∧ (∀ n : Nat, hotkeyValue .HOTKEY_NONE ||| n = n
        ∧ n ||| hotkeyValue .HOTKEY_NONE = n) := by
  refine ⟨by decide, ?_, rfl, fun n => ⟨by simp [hotkeyValue], by simp [hotkeyValue]⟩⟩
  intro f g h
  funext j
  rw [← hotkeyCompose_testBit f j, ← hotkeyCompose_testBit g j, h]

/-- C9 witness: injectivity of OR-composition applied at the concrete subset
whose only member is HOTKEY_DPAD_DIGITAL. -/
theorem hotkey_flags_single_bit_injective_witness :
    (fun i : Fin 10 => decide (i = 0)) = (fun i : Fin 10 => decide (i = 0)) :=
  hotkey_flags_single_bit_injective.2.1 (fun i => decide (i = 0)) (fun i => decide (i = 0)) rfl

/-- C10: DpadDirection declares exactly five pairwise-distinct values and
DIRECTION_NONE has value 0, so a zero-initialized per-axis tracker state
denotes the reset None direction. -/
theorem dpad_direction_five_values :
    Fintype.card DpadDirection = 5
    ∧ (∀ a b : DpadDirection, dpadDirectionCode a = dpadDirectionCode b → a = b)
    ∧ dpadDirectionCode .DIRECTION_NONE = 0 := by
  decide

/-- C10 witness: distinctness of codes applied at the concrete pair
(DIRECTION_UP, DIRECTION_UP). -/
theorem dpad_direction_five_values_witness :
    DpadDirection.DIRECTION_UP = DpadDirection.DIRECTION_UP :=
  dpad_direction_five_values.2.1 DpadDirection.DIRECTION_UP DpadDirection.DIRECTION_UP rfl
